import Mathlib

/-!
Verification development for the Duo OpenVPN second-factor client
(src/salt/files/duo/duo_openvpn_vpn_001.py).

The Python source is shallowly embedded as executable Lean definitions:

* JSON payloads returned by the service are values of the inductive `Json`;
  the library decoder json.loads is abstracted as an `Option Json` input
  (`none` models a ValueError on malformed bytes).
* Python dictionary access is modelled by `pyGetItem` (the subscript
  operator, raising KeyError/TypeError) and `pyGet` (the dict.get method,
  raising AttributeError on non-dicts), with Python truthiness as `Json.truthy`.
* External cryptographic library primitives (hmac/hashlib digests, base64)
  are abstracted as explicit function parameters: every theorem about the
  signer or the cache key holds for an arbitrary digest function, which is
  strictly stronger than for the concrete SHA implementations.
* The side-channel control file written by success()/failure() and the
  cache directory are modelled as an explicit event trace and cache state;
  each call to success/failure appends a `writeControl` event, and the
  final content of the control file is the last write in the trace
  (`lastWrite`).  Log lines and message formatting are out of scope per the
  specification and are not traced; `pyStr` is only a rendering
  approximation used for error-message fields that no theorem inspects.
-/

namespace Duo

/-- JSON values as decoded by json.loads: objects are association lists in
document order (duplicate keys may appear in a document; Python keeps the
last occurrence, which `jLookup` mirrors). -/
inductive Json where
  | null
  | bool (b : Bool)
  | num (n : Int)
  | str (s : String)
  | arr (elems : List Json)
  | obj (fields : List (String × Json))

/-- Python exception kinds that the workflow code can raise or catch.
`callErr` wraps the transport and protocol failures that json_api_call can
raise; the others are builtin Python exceptions produced by the modelled
operations. -/
inductive CallErr where
  | transport (msg : String)
  | protocol (status : Nat) (msg : String)
deriving DecidableEq

inductive PyErr where
  | keyError
  | typeError
  | attributeError
  | nameError
  | callErr (e : CallErr)
deriving DecidableEq

/-- Lookup in a decoded JSON object: Python dicts built by json.loads keep
the last occurrence of a duplicated key. -/
def jLookup (fields : List (String × Json)) (k : String) : Option Json :=
  fields.foldl (fun acc kv => if kv.1 = k then some kv.2 else acc) none

/-- Subscript access d[k]: KeyError when the key is absent, TypeError when
the value is not a dict (string indices are not strings in Python 2). -/
def pyGetItem : Json → String → Except PyErr Json
  | .obj fs, k =>
    match jLookup fs k with
    | some v => .ok v
    | none => .error .keyError
  | _, _ => .error .typeError

/-- Method access d.get(k): returns None for a missing key; raises
AttributeError when the receiver is not a dict. -/
def pyGet : Json → String → Except PyErr (Option Json)
  | .obj fs, k => .ok (jLookup fs k)
  | _, _ => .error .attributeError

/-- Python truthiness of a JSON value. -/
def Json.truthy : Json → Bool
  | .null => false
  | .bool b => b
  | .num n => n != 0
  | .str s => !s.isEmpty
  | .arr l => !l.isEmpty
  | .obj l => !l.isEmpty

/-- Truthiness of an optional value, None being falsy. -/
def optTruthy : Option Json → Bool
  | none => false
  | some j => j.truthy

/-- Truthiness of an optional string, as for values of os.environ.get. -/
def optStrTruthy : Option String → Bool
  | none => false
  | some s => !s.isEmpty

/-- A possibly missing environment string as a Python value: None or str. -/
def pyOfOptStr : Option String → Json
  | none => .null
  | some s => .str s

/-- Python equality of a JSON value against a string literal, as in the
source comparisons result == API_RESULT_ALLOW: true exactly for the equal
string, false for every other value (including None). -/
def Json.eqStr : Json → String → Bool
  | .str s, t => s == t
  | _, _ => false

/-- Python equality of an optional JSON value against a string literal. -/
def optEqStr : Option Json → String → Bool
  | some j, t => j.eqStr t
  | none, _ => false

/-- UTF-8 bytes of a character, as Python 2 byte strings hold them. -/
def utf8Bytes (c : Char) : List Nat :=
  let n := c.toNat
  if n < 128 then [n]
  else if n < 2048 then [192 + n / 64, 128 + n % 64]
  else if n < 65536 then [224 + n / 4096, 128 + (n / 64) % 64, 128 + n % 64]
  else [240 + n / 262144, 128 + (n / 4096) % 64, 128 + (n / 64) % 64, 128 + n % 64]

/-- Uppercase hexadecimal digit for a value below 16. -/
def hexDigit (n : Nat) : Char :=
  if n < 10 then Char.ofNat (48 + n) else Char.ofNat (55 + n)

/-- Percent-escape of one byte, as urllib.quote renders unsafe bytes. -/
def percentByte (b : Nat) : String :=
  String.mk [Char.ofNat 37, hexDigit (b / 16 % 16), hexDigit (b % 16)]

/-- Characters urllib.quote(s, tilde) leaves unescaped: the always-safe set
of ASCII letters, digits, underscore, dot, dash, plus the extra tilde. -/
def quoteSafe (c : Char) : Bool :=
  (c.isAlpha && c.toNat < 128) || c.isDigit ||
    c.toNat = 95 || c.toNat = 46 || c.toNat = 45 || c.toNat = 126

/-- Model of urllib.quote(s, tilde): percent-encodes every byte outside the
unreserved set, leaving unreserved characters and the tilde intact. -/
def urlquote (s : String) : String :=
  String.join (s.data.map fun c =>
    if quoteSafe c then String.singleton c
    else String.join ((utf8Bytes c).map percentByte))

/-- Strict lexicographic comparison of lists by an element comparison,
matching Python sequence comparison (a proper prefix is smaller). -/
def lexLt {α : Type} [DecidableEq α] (lt : α → α → Bool) : List α → List α → Bool
  | [], [] => false
  | [], _ :: _ => true
  | _ :: _, [] => false
  | a :: as, b :: bs => if a = b then lexLt lt as bs else lt a b

theorem lexLt_irrefl {α : Type} [DecidableEq α] (lt : α → α → Bool)
    (hirr : ∀ a, lt a a = false) : ∀ as, lexLt lt as as = false
  | [] => rfl
  | a :: as => by
    unfold lexLt
    rw [if_pos rfl]
    exact lexLt_irrefl lt hirr as

theorem lexLt_asymm {α : Type} [DecidableEq α] (lt : α → α → Bool)
    (hasymm : ∀ a b, lt a b = true → lt b a = false) :
    ∀ as bs, lexLt lt as bs = true → lexLt lt bs as = false
  | [], [], h => absurd h (by simp [lexLt])
  | [], _ :: _, _ => rfl
  | _ :: _, [], h => absurd h (by simp [lexLt])
  | a :: as, b :: bs, h => by
    unfold lexLt at h ⊢
    by_cases hab : a = b
    · subst hab
      rw [if_pos rfl] at h ⊢
      exact lexLt_asymm lt hasymm as bs h
    · rw [if_neg hab] at h
      rw [if_neg (Ne.symm hab)]
      exact hasymm a b h

theorem lexLt_trans {α : Type} [DecidableEq α] (lt : α → α → Bool)
    (htrans : ∀ a b c, lt a b = true → lt b c = true → lt a c = true)
    (hasymm : ∀ a b, lt a b = true → lt b a = false) :
    ∀ as bs cs, lexLt lt as bs = true → lexLt lt bs cs = true → lexLt lt as cs = true
  | [], [], _, h1, _ => absurd h1 (by simp [lexLt])
  | [], _ :: _, [], _, h2 => absurd h2 (by simp [lexLt])
  | [], _ :: _, _ :: _, _, _ => rfl
  | _ :: _, [], _, h1, _ => absurd h1 (by simp [lexLt])
  | _ :: _, _ :: _, [], _, h2 => absurd h2 (by simp [lexLt])
  | a :: as, b :: bs, c :: cs, h1, h2 => by
    unfold lexLt at h1 h2 ⊢
    by_cases hab : a = b
    · subst hab
      rw [if_pos rfl] at h1
      by_cases hac : a = c
      · subst hac
        rw [if_pos rfl] at h2 ⊢
        exact lexLt_trans lt htrans hasymm as bs cs h1 h2
      · rw [if_neg hac] at h2 ⊢
        exact h2
    · rw [if_neg hab] at h1
      by_cases hbc : b = c
      · subst hbc
        rw [if_neg hab]
        exact h1
      · rw [if_neg hbc] at h2
        have hac : a ≠ c := by
          intro he
          subst he
          have := htrans a b a h1 h2
          rw [hasymm a b h1] at h2
          exact Bool.false_ne_true h2
        rw [if_neg hac]
        exact htrans a b c h1 h2

theorem lexLt_trichotomy {α : Type} [DecidableEq α] (lt : α → α → Bool)
    (htri : ∀ a b : α, a ≠ b → lt a b = true ∨ lt b a = true) :
    ∀ as bs, as ≠ bs → lexLt lt as bs = true ∨ lexLt lt bs as = true
  | [], [], h => absurd rfl h
  | [], _ :: _, _ => Or.inl rfl
  | _ :: _, [], _ => Or.inr rfl
  | a :: as, b :: bs, h => by
    unfold lexLt
    by_cases hab : a = b
    · subst hab
      rw [if_pos rfl, if_pos rfl]
      exact lexLt_trichotomy lt htri as bs (fun he => h (by rw [he]))
    · rw [if_neg hab, if_neg (Ne.symm hab)]
      exact htri a b hab

/-- Strict character comparison, by code point (equivalently, by UTF-8
bytes, the order Python 2 byte strings compare in). -/
def charLt (a b : Char) : Bool := decide (a < b)

theorem charLt_irrefl (a : Char) : charLt a a = false := by
  simp [charLt]

theorem charLt_asymm (a b : Char) (h : charLt a b = true) : charLt b a = false := by
  simp [charLt] at h ⊢
  exact le_of_lt h

theorem charLt_trans (a b c : Char) (h1 : charLt a b = true) (h2 : charLt b c = true) :
    charLt a c = true := by
  simp [charLt] at h1 h2 ⊢
  exact h1.trans h2

theorem charLt_tri (a b : Char) (h : a ≠ b) : charLt a b = true ∨ charLt b a = true := by
  simp [charLt]
  exact h

/-- Strict string comparison: lexicographic on the character lists. -/
def strLt (a b : String) : Bool := lexLt charLt a.data b.data

theorem str_data_inj {a b : String} (h : a.data = b.data) : a = b := by
  cases a
  cases b
  exact congrArg String.mk h

theorem strLt_irrefl (a : String) : strLt a a = false :=
  lexLt_irrefl charLt charLt_irrefl a.data

theorem strLt_asymm (a b : String) (h : strLt a b = true) : strLt b a = false :=
  lexLt_asymm charLt charLt_asymm a.data b.data h

theorem strLt_trans (a b c : String) (h1 : strLt a b = true) (h2 : strLt b c = true) :
    strLt a c = true :=
  lexLt_trans charLt charLt_trans charLt_asymm a.data b.data c.data h1 h2

theorem strLt_tri (a b : String) (h : a ≠ b) : strLt a b = true ∨ strLt b a = true :=
  lexLt_trichotomy charLt charLt_tri a.data b.data (fun he => h (str_data_inj he))

/-- Non-strict string comparison used to model Python sorted() on
strings. -/
def strLe (a b : String) : Prop := strLt a b = true ∨ a = b

instance : DecidableRel strLe := fun a b => by
  unfold strLe
  infer_instance

instance : IsTotal String strLe where
  total a b := by
    by_cases h : a = b
    · exact Or.inl (Or.inr h)
    · rcases strLt_tri a b h with h1 | h1
      · exact Or.inl (Or.inl h1)
      · exact Or.inr (Or.inl h1)

instance : IsTrans String strLe where
  trans a b c hab hbc := by
    rcases hab with h1 | h1
    · rcases hbc with h2 | h2
      · exact Or.inl (strLt_trans a b c h1 h2)
      · exact Or.inl (h2 ▸ h1)
    · rcases hbc with h2 | h2
      · exact Or.inl (h1 ▸ h2)
      · exact Or.inr (h1.trans h2)

instance : IsAntisymm String strLe where
  antisymm a b hab hba := by
    rcases hab with h1 | h1
    · rcases hba with h2 | h2
      · rw [strLt_asymm a b h1] at h2
        exact absurd h2 Bool.false_ne_true
      · exact h2.symm
    · exact h1

/-- Python comparison of lists of strings, lexicographic and strict. -/
def strListLt (x y : List String) : Bool := lexLt strLt x y

theorem strListLt_asymm (x y : List String) (h : strListLt x y = true) :
    strListLt y x = false :=
  lexLt_asymm strLt strLt_asymm x y h

theorem strLt_inj_ne {a b : String} (h : strLt a b = true) : a ≠ b := by
  intro he
  subst he
  rw [strLt_irrefl a] at h
  exact Bool.false_ne_true h

/-- Comparison used by the Python sorted() call in canon_params: tuples
(quoted key, value list) compare lexicographically, first on the quoted key
string, then on the raw value list (Python list comparison). -/
def pairLe (p q : String × List String) : Prop :=
  strLt p.1 q.1 = true ∨ (p.1 = q.1 ∧ (strListLt p.2 q.2 = true ∨ p.2 = q.2))

instance : DecidableRel pairLe := fun p q => by
  unfold pairLe
  infer_instance

instance : IsTotal (String × List String) pairLe where
  total p q := by
    by_cases h1 : p.1 = q.1
    · by_cases h2 : p.2 = q.2
      · exact Or.inl (Or.inr ⟨h1, Or.inr h2⟩)
      · rcases lexLt_trichotomy strLt strLt_tri p.2 q.2 h2 with h3 | h3
        · exact Or.inl (Or.inr ⟨h1, Or.inl h3⟩)
        · exact Or.inr (Or.inr ⟨h1.symm, Or.inl h3⟩)
    · rcases strLt_tri p.1 q.1 h1 with h3 | h3
      · exact Or.inl (Or.inl h3)
      · exact Or.inr (Or.inl h3)

instance : IsTrans (String × List String) pairLe where
  trans p q r hpq hqr := by
    rcases hpq with h1 | ⟨e1, v1⟩
    · rcases hqr with h2 | ⟨e2, _⟩
      · exact Or.inl (strLt_trans _ _ _ h1 h2)
      · exact Or.inl (e2 ▸ h1)
    · rcases hqr with h2 | ⟨e2, v2⟩
      · exact Or.inl (e1 ▸ h2)
      · refine Or.inr ⟨e1.trans e2, ?_⟩
        rcases v1 with h3 | h3
        · rcases v2 with h4 | h4
          · exact Or.inl (lexLt_trans strLt strLt_trans strLt_asymm _ _ _ h3 h4)
          · exact Or.inl (h4 ▸ h3)
        · rcases v2 with h4 | h4
          · exact Or.inl (h3 ▸ h4)
          · exact Or.inr (h3.trans h4)

instance : IsAntisymm (String × List String) pairLe where
  antisymm p q hpq hqp := by
    rcases hpq with h1 | ⟨e1, v1⟩
    · rcases hqp with h2 | ⟨e2, _⟩
      · rw [strLt_asymm _ _ h1] at h2
        exact absurd h2 Bool.false_ne_true
      · exact absurd e2.symm (strLt_inj_ne h1)
    · rcases hqp with h2 | ⟨e2, v2⟩
      · exact absurd e1.symm (strLt_inj_ne h2)
      · refine Prod.ext e1 ?_
        rcases v1 with h3 | h3
        · rcases v2 with h4 | h4
          · rw [strListLt_asymm _ _ h3] at h4
            exact absurd h4 Bool.false_ne_true
          · exact h4.symm
        · exact h3

/-- Model of canon_params: the request parameters are an association list
from key to the ordered list of values (a Python dict of lists, listed in
insertion order).  Keys and values are percent-quoted, the (quoted key,
values) pairs are sorted as Python sorted() sorts tuples, each value list
is quoted and sorted, and the key=value fragments are ampersand-joined. -/
def canon_params (params : List (String × List String)) : String :=
  let pairs := List.insertionSort pairLe
    (params.map fun kv => (urlquote kv.1, kv.2))
  String.intercalate "&"
    (pairs.flatMap fun kv =>
      (List.insertionSort strLe (kv.2.map urlquote)).map
        fun v => kv.1 ++ "=" ++ v)

/-- Model of canonicalize: newline-joined canonical lines, with the date
line prepended for signature version 2; any other version raises
NotImplementedError, modelled as the error case. -/
def canonicalize (method host uri : String) (params : List (String × List String))
    (date : String) (sig_version : Nat) : Except Unit String :=
  if sig_version = 1 then
    .ok (String.intercalate "\n" [method.toUpper, host.toLower, uri, canon_params params])
  else if sig_version = 2 then
    .ok (String.intercalate "\n" [date, method.toUpper, host.toLower, uri, canon_params params])
  else .error ()

/-- Model of sign: the hmac-sha1 hex digest and base64 are external library
primitives, abstracted as the function parameters hmacSha1Hex (keyed by the
secret, applied to the canonical string) and b64; every theorem below holds
for any choice of these functions. -/
def sign (hmacSha1Hex : String → String → String) (b64 : String → String)
    (ikey skey method host uri date : String) (sig_version : Nat)
    (params : List (String × List String)) : Except Unit String :=
  (canonicalize method host uri params date sig_version).map fun canonical =>
    "Basic " ++ b64 (ikey ++ ":" ++ hmacSha1Hex skey canonical)

/-- The typed protocol error raised by parse_json_response via raise_error:
a RuntimeError carrying the HTTP status, the reason phrase, the data
variable as it stands at raise time (the raw body, or the decoded JSON
value once the body has been rebound by json.loads), and the message. -/
structure ProtocolError where
  status : Nat
  reason : String
  data : String ⊕ Json
  msg : String

/-- Rendering used only to interpolate values into error-message text,
approximating Python str(); no theorem depends on message content (message
formatting is out of scope per the specification). -/
def pyStr : Json → String
  | .null => "None"
  | .bool b => cond b "True" "False"
  | .num n => toString n
  | .str s => s
  | .arr xs => "[list of " ++ toString xs.length ++ " items]"
  | .obj fs => "[dict of " ++ toString fs.length ++ " items]"

/-- Model of parse_json_response.  The transport result is the HTTP status,
reason phrase and raw body; json.loads is abstracted by the decoded input,
none standing for a ValueError on malformed JSON.  The control flow mirrors
the source: for a non-200 status the body is probed for a FAIL envelope to
enrich the message, with ValueError, KeyError and TypeError from that probe
swallowed, and a RuntimeError is always raised; for a 200 status the body
must decode to a dict whose stat field equals OK, in which case the
response field is returned, any failure of that shape raising the same
RuntimeError with ValueError, KeyError and TypeError caught. -/
def parse_json_response (status : Nat) (reason rawBody : String)
    (decoded : Option Json) : Except ProtocolError Json :=
  if status = 200 then
    match decoded with
    | none =>
      .error ⟨status, reason, .inl rawBody, "Received bad response: " ++ rawBody⟩
    | some d =>
      match pyGetItem d "stat" with
      | .error _ =>
        .error ⟨status, reason, .inr d, "Received bad response: " ++ pyStr d⟩
      | .ok v =>
        if v.eqStr "OK" then
          match pyGetItem d "response" with
          | .ok r => .ok r
          | .error _ =>
            .error ⟨status, reason, .inr d, "Received bad response: " ++ pyStr d⟩
        else
          .error ⟨status, reason, .inr d, "Received error response: " ++ pyStr d⟩
  else
    match decoded with
    | none =>
      .error ⟨status, reason, .inl rawBody, "Received " ++ toString status ++ " " ++ reason⟩
    | some d =>
      match pyGetItem d "stat" with
      | .error _ =>
        .error ⟨status, reason, .inr d, "Received " ++ toString status ++ " " ++ reason⟩
      | .ok v =>
        if v.eqStr "FAIL" then
          match pyGetItem d "message_detail" with
          | .ok detail =>
            match pyGetItem d "message" with
            | .ok m =>
              .error ⟨status, reason, .inr d,
                "Received " ++ toString status ++ " " ++ pyStr m ++ " (" ++ pyStr detail ++ ")"⟩
            | .error _ =>
              .error ⟨status, reason, .inr d, "Received " ++ toString status ++ " " ++ reason⟩
          | .error _ =>
            match pyGetItem d "message" with
            | .ok m =>
              .error ⟨status, reason, .inr d, "Received " ++ toString status ++ " " ++ pyStr m⟩
            | .error _ =>
              .error ⟨status, reason, .inr d, "Received " ++ toString status ++ " " ++ reason⟩
        else
          .error ⟨status, reason, .inr d, "Received " ++ toString status ++ " " ++ reason⟩

/-- Whether a Python value may be a dict key (hashable): scalars are, lists
and dicts raise TypeError at dict construction. -/
def jsonHashableKey : Json → Bool
  | .arr _ => false
  | .obj _ => false
  | _ => true

/-- Key coercion performed by json.dumps on non-string dict keys. -/
def jsonKeyStr : Json → String
  | .str s => s
  | .null => "null"
  | .bool b => cond b "true" "false"
  | .num n => toString n
  | _ => ""

/-- Escape of one character inside a JSON string literal (quote and
backslash; further escaping of control characters is immaterial to every
claim, which uses plain printable strings). -/
def jsonEscapeChar (c : Char) : String :=
  if c.toNat = 34 ∨ c.toNat = 92 then String.mk [Char.ofNat 92, c] else String.singleton c

/-- JSON string literal for s. -/
def jsonStrQuote (s : String) : String :=
  "\"" ++ String.join (s.data.map jsonEscapeChar) ++ "\""

/-- JSON rendering of a scalar value, as json.dumps renders it; list and
dict values never reach serialization in get_hash_for_connection because
the corresponding key is rejected as unhashable first. -/
def jsonScalarDump : Json → String
  | .null => "null"
  | .bool b => cond b "true" "false"
  | .num n => toString n
  | .str s => jsonStrQuote s
  | .arr _ => ""
  | .obj _ => ""

/-- One key: value fragment of the serialized connection dict.  On the
hashable scalars this rendering is injective (string values carry quotes,
numerals and literals do not), so deduplicating fragments below coincides
with deduplicating dict keys. -/
def renderPair (j : Json) : String :=
  jsonStrQuote (jsonKeyStr j) ++ ": " ++ jsonScalarDump j

/-- Model of json.dumps applied to the dict literal of
get_hash_for_connection, whose every value equals its key: the mapping is
the set of the given keys; a TypeError is raised if any key is unhashable.
The serialization is canonicalized to sorted key order.  The real CPython 2
dict iterates in hash-slot order, which depends on the insertion order when
keys collide under open-addressing probing, so this canonical order is a
deliberate simplification; the byte-accurate 64-bit CPython 2 behaviour for
string keys is modelled separately below by py2DictTable and
connection_descriptor_py2, and the role-permutation claim about the cache
key is settled against that byte-accurate model.  For the concrete
descriptors stated literally in the theorems below (descC1 and descC4) the
real slot order coincides with the canonical sorted order, and for the
alice/bob/1.2.3.4 key set of the collision theorem the slots are
collision-free so the real serialization is insertion-order invariant;
both facts are proved below against the byte-accurate model. -/
def json_dumps_dict (ks : List Json) : Except PyErr String :=
  if ks.all jsonHashableKey then
    .ok ("\x7b" ++ String.intercalate ", "
      (List.insertionSort strLe (ks.map renderPair).dedup) ++ "\x7d")
  else .error .typeError

/-- Model of the connection_descriptor local of get_hash_for_connection:
the source builds the dict with the parameter VALUES as keys (username:
username rather than a string literal), each key mapped to itself. -/
def connection_descriptor (username password ipaddr : Json) : Except PyErr String :=
  json_dumps_dict [username, password, ipaddr]

/-- Model of get_hash_for_connection: the sha512 hex digest of the
connection descriptor.  hashlib.sha512 is an external library primitive,
abstracted as the function parameter sha512hex; every theorem below holds
for any choice of that function. -/
def get_hash_for_connection (sha512hex : String → String)
    (username password ipaddr : Json) : Except PyErr String :=
  (connection_descriptor username password ipaddr).map sha512hex

/-- CPython 2 string hash on a 64-bit build with hash randomization off
(the Python 2 default): x starts as the first byte shifted left by 7, each
byte folds in as x = (1000003 * x) xor byte, all modulo 2 to the 64, then
x is xored with the byte length; a result equal to the unsigned rendering
of minus one becomes that of minus two.  The empty string hashes to 0. -/
def py2StringHash (s : String) : Nat :=
  let bs := s.data.flatMap utf8Bytes
  match bs with
  | [] => 0
  | b0 :: _ =>
    let x0 := (b0 * 128) % 2 ^ 64
    let x1 := bs.foldl (fun x c => ((1000003 * x) % 2 ^ 64) ^^^ c) x0
    let x2 := x1 ^^^ bs.length
    if x2 = 2 ^ 64 - 1 then 2 ^ 64 - 2 else x2

/-- One open-addressing probe sequence of the fresh CPython 2 dict (8
slots, mask 7): examine slot i mod 8; place the key if the slot is empty,
stop if the slot already holds the same key (the value is overwritten in
place), otherwise continue with i = 5 * i + perturb + 1 (modulo 2 to the
64, as the C size_t wraps) and perturb shifted right by 5.  The fuel
bounds the loop; a table with an empty slot never exhausts it. -/
def py2Probe : Nat → List (Option String) → String → Nat → Nat → List (Option String)
  | 0, t, k, i, _ =>
    match t.getD (i % 8) none with
    | none => t.set (i % 8) (some k)
    | some _ => t
  | fuel + 1, t, k, i, perturb =>
    match t.getD (i % 8) none with
    | none => t.set (i % 8) (some k)
    | some k2 =>
      if k2 = k then t
      else py2Probe fuel t k ((5 * i + perturb + 1) % 2 ^ 64) (perturb / 32)

/-- Insertion of one string key into the CPython 2 table: the probe starts
at hash and mask with perturb equal to the full unsigned hash. -/
def py2InsertKey (t : List (Option String)) (k : String) : List (Option String) :=
  py2Probe 64 t k (py2StringHash k % 8) (py2StringHash k)

/-- Layout of the fresh 8-slot CPython 2 dict after inserting the keys in
order (at most five keys: no resize occurs). -/
def py2DictTable (ks : List String) : List (Option String) :=
  ks.foldl py2InsertKey (List.replicate 8 none)

/-- Byte-accurate model of json.dumps on the identity-keyed dict literal
of get_hash_for_connection for string components on 64-bit CPython 2:
entries are emitted in slot order of the hash table, an order that depends
on the insertion order whenever keys collide under probing. -/
def py2_dumps_dict (ks : List String) : String :=
  "\x7b" ++ String.intercalate ", "
    (((py2DictTable ks).filterMap id).map fun k => renderPair (.str k)) ++ "\x7d"

/-- Byte-accurate connection descriptor: json.dumps of the dict keyed by
the component values, inserted in source order (username, password,
ipaddr). -/
def connection_descriptor_py2 (username password ipaddr : String) : String :=
  py2_dumps_dict [username, password, ipaddr]

/-- Byte-accurate cache key for string identity components: the digest of
the byte-accurate descriptor, for an abstract digest function. -/
def get_hash_for_connection_py2 (sha512hex : String → String)
    (username password ipaddr : String) : String :=
  sha512hex (connection_descriptor_py2 username password ipaddr)

/-- Observable actions of one workflow run: the two endpoint calls, each
write of the binary decision to the control file (true for the success
marker, false for the failure marker), and the creation of a replay-cache
entry keyed by a connection hash. -/
inductive Event where
  | preauthCall
  | authCall
  | writeControl (allow : Bool)
  | cacheStore (key : String)
deriving DecidableEq

/-- Shared cache state: the entries of the cache directory as (file name,
mtime) pairs, plus the current clock value time.time() returns. -/
structure CState where
  cache : List (String × Nat)
  now : Nat

/-- Model of clean_cache: every entry strictly older than the 12-hour
retention window is deleted. -/
def clean_cache (st : CState) : CState :=
  { st with cache := st.cache.filter fun e => !decide (e.2 < st.now - 12 * 60 * 60) }

/-- Model of check_cache: sweep expired entries, then write the success
marker if the connection hash is present.  No network action occurs; a
TypeError from hashing an unhashable credential propagates. -/
def check_cache (sha512hex : String → String) (username password ipaddr : Json)
    (st : CState) : List Event × CState × Except PyErr Unit :=
  let st1 := clean_cache st
  match get_hash_for_connection sha512hex username password ipaddr with
  | .error e => ([], st1, .error e)
  | .ok h =>
    if st1.cache.any fun e => e.1 == h then ([.writeControl true], st1, .ok ())
    else ([], st1, .ok ())

/-- Model of cache_auth: create (or touch) the zero-byte marker named by
the connection hash, with the current time as its mtime. -/
def cache_auth (sha512hex : String → String) (username password ipaddr : Json)
    (st : CState) : List Event × CState × Except PyErr Unit :=
  match get_hash_for_connection sha512hex username password ipaddr with
  | .error e => ([], st, .error e)
  | .ok h =>
    ([.cacheStore h],
     { st with cache := (st.cache.filter fun e => !(e.1 == h)) ++ [(h, st.now)] },
     .ok ())

/-- Model of preauth.  The outcome of json_api_call on the
pre-authentication endpoint is the input resp (ok payload, or a raised
transport or protocol error).  The trace always starts with the endpoint
call.  Mirroring the source, a result of auth returns factors.get(default)
as the default out-of-band factor; otherwise a falsy status writes a
failure marker WITHOUT stopping, then the enroll, deny, allow and unknown
branches write their marker, and the function returns None.  Exceptions
(the raised call error, or AttributeError and KeyError from probing the
payload) propagate to the caller. -/
def preauth (resp : Except CallErr Json) : List Event × Except PyErr (Option Json) :=
  match resp with
  | .error e => ([.preauthCall], .error (.callErr e))
  | .ok response =>
    let t : List Event × Except PyErr (Option Json) :=
      match pyGet response "result" with
      | .error e => ([], .error e)
      | .ok result =>
        if optEqStr result "auth" then
          match pyGetItem response "factors" with
          | .error e => ([], .error e)
          | .ok factors =>
            match pyGet factors "default" with
            | .error e => ([], .error e)
            | .ok dflt => ([], .ok dflt)
        else
          match pyGet response "status" with
          | .error e => ([], .error e)
          | .ok status =>
            let invalid : List Event :=
              if optTruthy status then [] else [.writeControl false]
            let decision : List Event :=
              if optEqStr result "enroll" then [.writeControl false]
              else if optEqStr result "deny" then [.writeControl false]
              else if optEqStr result "allow" then [.writeControl true]
              else [.writeControl false]
            (invalid ++ decision, .ok none)
    (.preauthCall :: t.1, t.2)

/-- Model of auth.  The outcome of json_api_call on the authentication
endpoint is the input resp; the trace always starts with the endpoint
call.  Mirroring the source, a falsy result or status writes a failure
marker WITHOUT stopping; then a result of allow creates the replay-cache
entry and writes the success marker, and both deny and any other result
write the failure marker. -/
def auth (sha512hex : String → String) (resp : Except CallErr Json)
    (username password ipaddr : Json) (st : CState) :
    List Event × CState × Except PyErr Unit :=
  match resp with
  | .error e => ([.authCall], st, .error (.callErr e))
  | .ok response =>
    let t : List Event × CState × Except PyErr Unit :=
      match pyGet response "result" with
      | .error e => ([], st, .error e)
      | .ok result =>
        match pyGet response "status" with
        | .error e => ([], st, .error e)
        | .ok status =>
          let invalid : List Event :=
            if optTruthy result && optTruthy status then [] else [.writeControl false]
          if optEqStr result "allow" then
            match cache_auth sha512hex username password ipaddr st with
            | (ec, st1, .error e) => (invalid ++ ec, st1, .error e)
            | (ec, st1, .ok _) => (invalid ++ ec ++ [.writeControl true], st1, .ok ())
          else if optEqStr result "deny" then
            (invalid ++ [.writeControl false], st, .ok ())
          else
            (invalid ++ [.writeControl false], st, .ok ())
    (.authCall :: t.1, t.2.1, t.2.2)

/-- Per-connection inputs read from the environment; ipaddr defaults to
0.0.0.0 when absent.  The service configuration (keys, host, proxy) is out
of scope: the network behaviour it selects is abstracted by the endpoint
outcomes fed to main. -/
structure Env where
  control : Option String
  username : Option String
  password : Option String
  ipaddr : Option String

/-- Model of lines 432-437 of main, given the preauth outcome: with a
truthy environment password the default factor is never evaluated; with a
falsy password an unbound default_factor (preauth raised) is a NameError;
a bound falsy factor writes a failure marker WITHOUT stopping and leaves
the falsy environment password in place; a bound truthy factor becomes the
credential. -/
def credPhase (password : Option String) (dfRes : Except PyErr (Option Json)) :
    List Event × Except PyErr Json :=
  if optStrTruthy password then ([], .ok (.str (password.getD "")))
  else
    match dfRes with
    | .error _ => ([], .error .nameError)
    | .ok df =>
      if optTruthy df then ([], .ok (df.getD .null))
      else ([.writeControl false], .ok (pyOfOptStr password))

/-- Model of the final try block of main plus the unconditional trailing
failure(control): check_cache then auth, any exception caught and answered
with a failure marker, and in every case one more failure marker written
at the end of main. -/
def authTry (sha512hex : String → String) (resp : Except CallErr Json)
    (username password ipaddr : Json) (st : CState) : List Event × CState :=
  match check_cache sha512hex username password ipaddr st with
  | (ec, st1, .error _) => (ec ++ [.writeControl false, .writeControl false], st1)
  | (ec, st1, .ok _) =>
    match auth sha512hex resp username password ipaddr st1 with
    | (ea, st2, .error _) => (ec ++ ea ++ [.writeControl false, .writeControl false], st2)
    | (ea, st2, .ok _) => (ec ++ ea ++ [.writeControl false], st2)

/-- Model of main.  Inputs: the environment, the outcome each endpoint
call would produce if made, and the shared cache state.  Output: the event
trace, the final cache state, and the exception escaping main if any
(.error means main itself raised; every decision already written stays
written).  Mirrors the source: missing control or username writes a
failure marker and returns; preauth runs with its exceptions caught and
answered by a failure marker WITHOUT stopping; the credential is resolved
(possibly raising the NameError of line 432 on an unbound default_factor);
then check_cache and auth run with exceptions caught, and main
unconditionally writes a final failure marker. -/
def main (sha512hex : String → String) (env : Env)
    (preauthResp authResp : Except CallErr Json) (st : CState) :
    List Event × CState × Except PyErr Unit :=
  if optStrTruthy env.control && optStrTruthy env.username then
    let pa := preauth preauthResp
    let ef : List Event :=
      match pa.2 with
      | .ok _ => []
      | .error _ => [.writeControl false]
    match credPhase env.password pa.2 with
    | (ec, .error e) => (pa.1 ++ ef ++ ec, st, .error e)
    | (ec, .ok cred) =>
      let t := authTry sha512hex authResp (.str (env.username.getD "")) cred
        (.str (env.ipaddr.getD "0.0.0.0")) st
      (pa.1 ++ ef ++ ec ++ t.1, t.2, .ok ())
  else
    ([.writeControl false], st, .ok ())

/-- Final content of the control file after a run: the last decision
written in the trace, if any. -/
def lastWrite (tr : List Event) : Option Bool :=
  tr.foldl (fun acc e => match e with | .writeControl b => some b | _ => acc) none

/-- Environment of the end-to-end allow scenario: control file, username
alice, password s3cr3t, source address 10.0.0.5. -/
def envC1 : Env := ⟨some "ctl", some "alice", some "s3cr3t", some "10.0.0.5"⟩

/-- Pre-authentication payload with result auth and no default factor. -/
def paAuth : Except CallErr Json := .ok (.obj [("result", .str "auth"), ("factors", .obj [])])

/-- Authentication payload with result allow and a truthy status. -/
def aaAllow : Except CallErr Json := .ok (.obj [("result", .str "allow"), ("status", .str "allow")])

/-- Authentication payload with result deny and a truthy status. -/
def aaDeny : Except CallErr Json := .ok (.obj [("result", .str "deny"), ("status", .str "denied")])

/-- Serialized connection descriptor of (alice, s3cr3t, 10.0.0.5). -/
def descC1 : String :=
  "\x7b\"10.0.0.5\": \"10.0.0.5\", \"alice\": \"alice\", \"s3cr3t\": \"s3cr3t\"\x7d"

/-- Environment of the enroll scenario: username alice, no password. -/
def envC3 : Env := ⟨some "ctl", some "alice", none, none⟩

/-- Pre-authentication payload with result enroll. -/
def paEnroll : Except CallErr Json :=
  .ok (.obj [("result", .str "enroll"), ("status", .str "not enrolled")])

/-- Authentication payload whose status field is missing while result is
allow: the malformed-response case of the auth step. -/
def respC4 : Except CallErr Json := .ok (.obj [("result", .str "allow")])

/-- Serialized connection descriptor of (alice, pw, 1.2.3.4). -/
def descC4 : String := "\x7b\"1.2.3.4\": \"1.2.3.4\", \"alice\": \"alice\", \"pw\": \"pw\"\x7d"

theorem eqStr_true_iff (v : Json) (t : String) : v.eqStr t = true ↔ v = .str t := by
  cases v <;> simp [Json.eqStr]

theorem preauth_fst (resp : Except CallErr Json) :
    ∃ t, (preauth resp).1 = Event.preauthCall :: t := by
  cases resp <;> exact ⟨_, rfl⟩

theorem auth_fst (f : String → String) (resp : Except CallErr Json)
    (u p i : Json) (st : CState) :
    ∃ t, (auth f resp u p i st).1 = Event.authCall :: t := by
  cases resp <;> exact ⟨_, rfl⟩

theorem lastWrite_append (l : List Event) (b : Bool) :
    lastWrite (l ++ [Event.writeControl b]) = some b := by
  simp [lastWrite, List.foldl_append]

theorem credPhase_error (pw : Option String) (dfRes : Except PyErr (Option Json))
    (ec : List Event) (e : PyErr) (h : credPhase pw dfRes = (ec, .error e)) :
    ec = [] ∧ e = PyErr.nameError ∧ ∃ e0, dfRes = .error e0 := by
  by_cases hpw : optStrTruthy pw = true
  · have hcp : credPhase pw dfRes = ([], .ok (.str (pw.getD ""))) := by
      unfold credPhase
      rw [if_pos hpw]
    rw [hcp] at h
    exact absurd (congrArg Prod.snd h) (by simp)
  · cases dfRes with
    | error e0 =>
      have hcp : credPhase pw (Except.error e0) = ([], .error PyErr.nameError) := by
        unfold credPhase
        rw [if_neg hpw]
      rw [hcp] at h
      exact ⟨(congrArg Prod.fst h).symm, (Except.error.inj (congrArg Prod.snd h)).symm, e0, rfl⟩
    | ok df =>
      by_cases hdt : optTruthy df = true
      · have hcp : credPhase pw (Except.ok df) = ([], .ok (df.getD .null)) := by
          unfold credPhase
          rw [if_neg hpw]
          exact if_pos hdt
        rw [hcp] at h
        exact absurd (congrArg Prod.snd h) (by simp)
      · have hcp : credPhase pw (Except.ok df)
            = ([Event.writeControl false], .ok (pyOfOptStr pw)) := by
          unfold credPhase
          rw [if_neg hpw]
          exact if_neg hdt
        rw [hcp] at h
        exact absurd (congrArg Prod.snd h) (by simp)

theorem authTry_shape (f : String → String) (resp : Except CallErr Json)
    (u p i : Json) (st : CState) :
    ∃ l st2, authTry f resp u p i st = (l ++ [Event.writeControl false], st2) := by
  unfold authTry
  rcases hc : check_cache f u p i st with ⟨ec, st1, r1⟩
  cases r1 with
  | error e => exact ⟨ec ++ [Event.writeControl false], st1, by simp⟩
  | ok _ =>
    rcases ha : auth f resp u p i st1 with ⟨ea, st2, r2⟩
    cases r2 with
    | error e =>
      exact ⟨ec ++ ea ++ [Event.writeControl false], st2, by simp [ha]⟩
    | ok _ => exact ⟨ec ++ ea, st2, by simp [ha]⟩

theorem authTry_hit (f : String → String) (resp : Except CallErr Json)
    (u p i : Json) (st : CState) (h : String)
    (hh : get_hash_for_connection f u p i = .ok h)
    (hfresh : ((clean_cache st).cache.any fun e => e.1 == h) = true) :
    ∃ rest st2, authTry f resp u p i st
      = (Event.writeControl true :: Event.authCall :: (rest ++ [Event.writeControl false]), st2) := by
  have hcc : check_cache f u p i st = ([Event.writeControl true], clean_cache st, .ok ()) := by
    unfold check_cache
    rw [hh]
    simp [hfresh]
  obtain ⟨t0, ht0⟩ := auth_fst f resp u p i (clean_cache st)
  rcases ha : auth f resp u p i (clean_cache st) with ⟨ea, st2, r2⟩
  rw [ha] at ht0
  have hea : ea = Event.authCall :: t0 := ht0
  subst hea
  cases r2 with
  | error e =>
    refine ⟨t0 ++ [Event.writeControl false], st2, ?_⟩
    simp [authTry, hcc, ha]
  | ok _ =>
    refine ⟨t0, st2, ?_⟩
    simp [authTry, hcc, ha]

theorem py2Probe_empty (fuel : Nat) (t : List (Option String)) (k : String)
    (i perturb : Nat) (h : t.getD (i % 8) none = none) :
    py2Probe fuel t k i perturb = t.set (i % 8) (some k) := by
  cases fuel with
  | zero => rw [py2Probe, h]
  | succ fuel => rw [py2Probe, h]

theorem py2InsertKey_empty (t : List (Option String)) (k : String)
    (h : t.getD (py2StringHash k % 8) none = none) :
    py2InsertKey t k = t.set (py2StringHash k % 8) (some k) := by
  have he : t.getD ((py2StringHash k % 8) % 8) none = none := by
    rw [Nat.mod_mod_of_dvd _ (dvd_refl 8)]
    exact h
  unfold py2InsertKey
  rw [py2Probe_empty 64 t k _ _ he, Nat.mod_mod_of_dvd _ (dvd_refl 8)]

theorem getD_set_other (t : List (Option String)) (m n : Nat) (x : Option String)
    (h : m ≠ n) : (t.set m x).getD n none = t.getD n none := by
  rw [List.getD_eq_getElem?_getD, List.getD_eq_getElem?_getD, List.getElem?_set_ne h]

theorem replicate_getD_none (s : Nat) :
    (List.replicate 8 (none : Option String)).getD s none = none := by
  rw [List.getD_eq_getElem?_getD, List.getElem?_replicate]
  rcases lt_or_ge s 8 with h | h
  · rw [if_pos h]
    rfl
  · rw [if_neg (not_lt.mpr h)]
    rfl

theorem py2DictTable_three (u p i : String)
    (hup : py2StringHash u % 8 ≠ py2StringHash p % 8)
    (hui : py2StringHash u % 8 ≠ py2StringHash i % 8)
    (hpi : py2StringHash p % 8 ≠ py2StringHash i % 8) :
    py2DictTable [u, p, i]
      = (((List.replicate 8 none).set (py2StringHash u % 8) (some u)).set
          (py2StringHash p % 8) (some p)).set (py2StringHash i % 8) (some i) := by
  have e1 : (List.replicate 8 (none : Option String)).getD
      (py2StringHash u % 8) none = none := replicate_getD_none _
  have e2 : ((List.replicate 8 (none : Option String)).set
        (py2StringHash u % 8) (some u)).getD (py2StringHash p % 8) none = none := by
    rw [getD_set_other _ _ _ _ hup]
    exact replicate_getD_none _
  have e3 : (((List.replicate 8 (none : Option String)).set
        (py2StringHash u % 8) (some u)).set (py2StringHash p % 8) (some p)).getD
      (py2StringHash i % 8) none = none := by
    rw [getD_set_other _ _ _ _ hpi, getD_set_other _ _ _ _ hui]
    exact replicate_getD_none _
  unfold py2DictTable
  simp only [List.foldl_cons, List.foldl_nil]
  rw [py2InsertKey_empty _ _ e1, py2InsertKey_empty _ _ e2, py2InsertKey_empty _ _ e3]

/-- C1: an authentication response with result allow does create a
replay-cache entry and does write the success marker, but the final
control-file content of the run is still the failure marker, because
success and failure do not stop the run and main unconditionally writes a
failure marker last.  Concretely, for the identity (alice, s3cr3t,
10.0.0.5) with a preauth result of auth, the full trace ends in a failure
write, for any digest function. -/
theorem auth_allow_final_decision_deny : ∀ f : String → String,
    main f envC1 paAuth aaAllow ⟨[], 1000000⟩
      = ([.preauthCall, .authCall, .cacheStore (f descC1), .writeControl true,
          .writeControl false],
         ⟨[(f descC1, 1000000)], 1000000⟩, .ok ())
    ∧ lastWrite (main f envC1 paAuth aaAllow ⟨[], 1000000⟩).1 = some false :=
  fun f => ⟨rfl, rfl⟩

/-- C2 counterexample: with a fresh replay-cache entry for (alice, s3cr3t,
10.0.0.5), the run still calls the pre-authentication endpoint (before the
cache check) and the authentication endpoint (after it), and its final
control write is a failure, refuting a short-circuit to Allow with no
network calls. -/
theorem cache_hit_still_calls_endpoints :
    (main (fun s => s) envC1 paAuth aaDeny ⟨[(descC1, 5000)], 5000⟩).1
      = [.preauthCall, .writeControl true, .authCall, .writeControl false,
         .writeControl false]
    ∧ Event.preauthCall ∈ (main (fun s => s) envC1 paAuth aaDeny ⟨[(descC1, 5000)], 5000⟩).1
    ∧ Event.authCall ∈ (main (fun s => s) envC1 paAuth aaDeny ⟨[(descC1, 5000)], 5000⟩).1
    ∧ lastWrite (main (fun s => s) envC1 paAuth aaDeny ⟨[(descC1, 5000)], 5000⟩).1
      = some false := by
  refine ⟨rfl, ?_, ?_, rfl⟩ <;>
    · rw [show (main (fun s => s) envC1 paAuth aaDeny ⟨[(descC1, 5000)], 5000⟩).1
          = [.preauthCall, .writeControl true, .authCall, .writeControl false,
             .writeControl false] from rfl]
      simp

/-- C2 amended: on every invocation with control, username and password
present whose identity tuple has an unexpired replay-cache entry, the
cache check writes a success marker with no network action of its own, the
authentication endpoint is still called immediately afterwards, the
pre-authentication call has already happened before the cache check, and
the final control write of the run is a failure. -/
theorem cache_hit_success_write_before_auth_call
    (f : String → String) (env : Env) (pa aa : Except CallErr Json)
    (st : CState) (h : String)
    (hc : optStrTruthy env.control = true)
    (hu : optStrTruthy env.username = true)
    (hp : optStrTruthy env.password = true)
    (hh : get_hash_for_connection f (.str (env.username.getD ""))
        (.str (env.password.getD "")) (.str (env.ipaddr.getD "0.0.0.0")) = .ok h)
    (hfresh : ((clean_cache st).cache.any fun e => e.1 == h) = true) :
    ∃ pre rest,
      (main f env pa aa st).1
        = pre ++ Event.writeControl true :: Event.authCall
            :: (rest ++ [Event.writeControl false])
      ∧ Event.preauthCall ∈ pre
      ∧ lastWrite (main f env pa aa st).1 = some false := by
  obtain ⟨t0, ht0⟩ := preauth_fst pa
  obtain ⟨rest, st2, hat⟩ := authTry_hit f aa (.str (env.username.getD ""))
    (.str (env.password.getD "")) (.str (env.ipaddr.getD "0.0.0.0")) st h hh hfresh
  have hcp : credPhase env.password (preauth pa).2
      = ([], .ok (.str (env.password.getD ""))) := by
    unfold credPhase
    rw [if_pos hp]
  unfold main
  rw [hc, hu]
  simp only [Bool.and_self, if_true, hcp, hat, ht0]
  refine ⟨Event.preauthCall :: t0
      ++ (match (preauth pa).2 with | .ok _ => [] | .error _ => [Event.writeControl false]),
    rest, ?_, ?_, ?_⟩
  · simp
  · simp
  · simp [lastWrite, List.foldl_append]

/-- C2 witness: the hypotheses and conclusion of the amended cache-hit
theorem hold at the concrete scenario of a fresh entry for (alice, s3cr3t,
10.0.0.5). -/
theorem cache_hit_success_write_before_auth_call_witness :
    optStrTruthy envC1.control = true
    ∧ optStrTruthy envC1.username = true
    ∧ optStrTruthy envC1.password = true
    ∧ get_hash_for_connection (fun s => s) (.str (envC1.username.getD ""))
        (.str (envC1.password.getD "")) (.str (envC1.ipaddr.getD "0.0.0.0")) = .ok descC1
    ∧ ((clean_cache ⟨[(descC1, 5000)], 5000⟩).cache.any fun e => e.1 == descC1) = true
    ∧ ∃ pre rest,
        (main (fun s => s) envC1 paAuth aaDeny ⟨[(descC1, 5000)], 5000⟩).1
          = pre ++ Event.writeControl true :: Event.authCall
              :: (rest ++ [Event.writeControl false])
        ∧ Event.preauthCall ∈ pre
        ∧ lastWrite (main (fun s => s) envC1 paAuth aaDeny ⟨[(descC1, 5000)], 5000⟩).1
          = some false :=
  ⟨rfl, rfl, rfl, rfl, rfl,
   cache_hit_success_write_before_auth_call (fun s => s) envC1 paAuth aaDeny
     ⟨[(descC1, 5000)], 5000⟩ descC1 rfl rfl rfl rfl rfl⟩

/-- C3: a pre-authentication response with result enroll writes failure
markers, but the run does not stop: the authentication endpoint is still
called afterwards (the final decision is indeed a failure).  Shown on the
identity alice with no password, for any digest function. -/
theorem enroll_run_still_calls_auth_endpoint : ∀ f : String → String,
    main f envC3 paEnroll aaDeny ⟨[], 0⟩
      = ([.preauthCall, .writeControl false, .writeControl false, .authCall,
          .writeControl false, .writeControl false], ⟨[], 0⟩, .ok ())
    ∧ Event.authCall ∈ (main f envC3 paEnroll aaDeny ⟨[], 0⟩).1 := by
  intro f
  refine ⟨rfl, ?_⟩
  rw [show (main f envC3 paEnroll aaDeny ⟨[], 0⟩).1
      = [.preauthCall, .writeControl false, .writeControl false, .authCall,
         .writeControl false, .writeControl false] from rfl]
  simp

/-- C4: an authentication response with result allow but no status field
makes auth write a failure marker for the invalid response and then fall
through to the allow branch anyway: a replay-cache entry is created and a
success marker is written, for any digest function.  This refutes the
fail-closed claim for the malformed-response case. -/
theorem auth_missing_status_creates_cache_entry : ∀ f : String → String,
    auth f respC4 (.str "alice") (.str "pw") (.str "1.2.3.4") ⟨[], 50⟩
      = ([.authCall, .writeControl false, .cacheStore (f descC4), .writeControl true],
         ⟨[(f descC4, 50)], 50⟩, .ok ()) :=
  fun f => rfl

/-- C5: for every environment with control and username present and every
outcome of the two endpoint calls, main never lets a transport or protocol
error escape: the only exception main can raise is the NameError of its
own credential phase, and the control file always ends holding the failure
marker unless a success marker were final (it never is: the last write of
every such run is a failure). -/
theorem transport_errors_never_escape
    (f : String → String) (env : Env) (pa aa : Except CallErr Json) (st : CState)
    (hc : optStrTruthy env.control = true)
    (hu : optStrTruthy env.username = true) :
    ((main f env pa aa st).2.2 = .ok ()
      ∨ (main f env pa aa st).2.2 = .error PyErr.nameError)
    ∧ lastWrite (main f env pa aa st).1 = some false := by
  unfold main
  rw [hc, hu]
  simp only [Bool.and_self, if_true]
  rcases hcp : credPhase env.password (preauth pa).2 with ⟨ec, cres⟩
  cases cres with
  | error e =>
    obtain ⟨hec, he, e0, hdf⟩ := credPhase_error _ _ _ _ hcp
    subst hec
    subst he
    refine ⟨Or.inr ?_, ?_⟩ <;> simp [hcp, hdf, lastWrite, List.foldl_append]
  | ok cred =>
    obtain ⟨l, st2, hat⟩ := authTry_shape f aa (.str (env.username.getD "")) cred
      (.str (env.ipaddr.getD "0.0.0.0")) st
    refine ⟨Or.inl ?_, ?_⟩ <;> simp [hcp, hat, lastWrite, List.foldl_append]

/-- C5 witness: a concrete run with a transport error from the
pre-authentication call satisfies the hypotheses and the conclusion. -/
theorem transport_errors_never_escape_witness :
    optStrTruthy envC1.control = true ∧ optStrTruthy envC1.username = true ∧
    (((main (fun s => s) envC1 (.error (.transport "timeout")) aaDeny ⟨[], 0⟩).2.2 = .ok ()
        ∨ (main (fun s => s) envC1 (.error (.transport "timeout")) aaDeny ⟨[], 0⟩).2.2
          = .error PyErr.nameError)
      ∧ lastWrite (main (fun s => s) envC1 (.error (.transport "timeout")) aaDeny ⟨[], 0⟩).1
        = some false) :=
  ⟨rfl, rfl, transport_errors_never_escape (fun s => s) envC1
    (.error (.transport "timeout")) aaDeny ⟨[], 0⟩ rfl rfl⟩

/-- C6: every response with an HTTP status other than 200 makes the parser
raise a protocol error carrying that status and reason, whatever the body
decodes to, success-shaped bodies included. -/
theorem non_200_always_protocol_error (status : Nat) (reason rawBody : String)
    (decoded : Option Json) (h : status ≠ 200) :
    ∃ e, parse_json_response status reason rawBody decoded = .error e
      ∧ e.status = status ∧ e.reason = reason := by
  cases decoded with
  | none =>
    simp only [parse_json_response, if_neg h]
    exact ⟨_, rfl, rfl, rfl⟩
  | some d =>
    rcases h1 : pyGetItem d "stat" with e1 | v
    · simp only [parse_json_response, if_neg h, h1]
      exact ⟨_, rfl, rfl, rfl⟩
    · by_cases h2 : v.eqStr "FAIL" = true
      · rcases h3 : pyGetItem d "message_detail" with e3 | detail
        · rcases h4 : pyGetItem d "message" with e4 | m
          · simp only [parse_json_response, if_neg h, h1, if_pos h2, h3, h4]
            exact ⟨_, rfl, rfl, rfl⟩
          · simp only [parse_json_response, if_neg h, h1, if_pos h2, h3, h4]
            exact ⟨_, rfl, rfl, rfl⟩
        · rcases h4 : pyGetItem d "message" with e4 | m
          · simp only [parse_json_response, if_neg h, h1, if_pos h2, h3, h4]
            exact ⟨_, rfl, rfl, rfl⟩
          · simp only [parse_json_response, if_neg h, h1, if_pos h2, h3, h4]
            exact ⟨_, rfl, rfl, rfl⟩
      · simp only [parse_json_response, if_neg h, h1, if_neg h2]
        exact ⟨_, rfl, rfl, rfl⟩

/-- C6 witness: a 404 with a success-shaped OK envelope still yields a
protocol error carrying the status and reason. -/
theorem non_200_always_protocol_error_witness :
    (404 ≠ 200) ∧
    ∃ e, parse_json_response 404 "Not Found" "body"
        (some (.obj [("stat", .str "OK"), ("response", .obj [])])) = .error e
      ∧ e.status = 404 ∧ e.reason = "Not Found" :=
  ⟨by decide, non_200_always_protocol_error 404 "Not Found" "body"
    (some (.obj [("stat", .str "OK"), ("response", .obj [])])) (by decide)⟩

/-- C7: on HTTP status 200 the parser returns exactly the response field
of a decoded dict whose stat field equals OK, and in every other case
(decode failure, non-dict body, missing field, stat not OK) it raises a
protocol error carrying the status, the reason, and the body as the data
variable holds it at raise time: the raw body on a decode failure, the
decoded value afterwards.  The parser is total: malformed JSON never
crashes it. -/
theorem status_200_parse_characterization (reason rawBody : String)
    (decoded : Option Json) :
    (∀ r, parse_json_response 200 reason rawBody decoded = .ok r ↔
        ∃ d, decoded = some d ∧ pyGetItem d "stat" = .ok (.str "OK")
          ∧ pyGetItem d "response" = .ok r)
    ∧ ∀ e, parse_json_response 200 reason rawBody decoded = .error e →
        e.status = 200 ∧ e.reason = reason
          ∧ ((decoded = none ∧ e.data = .inl rawBody)
              ∨ ∃ d, decoded = some d ∧ e.data = .inr d) := by
  cases decoded with
  | none =>
    simp only [parse_json_response, if_pos (rfl : (200 : Nat) = 200)]
    constructor
    · intro r
      constructor
      · intro hhh
        exact absurd hhh (by simp)
      · rintro ⟨d, hd, -⟩
        exact absurd hd (by simp)
    · intro e he
      injection he with he
      subst he
      exact ⟨rfl, rfl, Or.inl ⟨by simp, rfl⟩⟩
  | some d =>
    rcases h1 : pyGetItem d "stat" with e1 | v
    · simp only [parse_json_response, if_pos (rfl : (200 : Nat) = 200), h1]
      constructor
      · intro r
        constructor
        · intro hhh
          exact absurd hhh (by simp)
        · rintro ⟨d2, hd2, hstat, -⟩
          injection hd2 with hd2
          subst hd2
          rw [h1] at hstat
          exact absurd hstat (by simp)
      · intro e he
        injection he with he
        subst he
        exact ⟨rfl, rfl, Or.inr ⟨d, rfl, rfl⟩⟩
    · by_cases h2 : v.eqStr "OK" = true
      · have hv : v = .str "OK" := (eqStr_true_iff v "OK").mp h2
        subst hv
        rcases h3 : pyGetItem d "response" with e3 | r0
        · simp only [parse_json_response, if_pos (rfl : (200 : Nat) = 200), h1,
            if_pos h2, if_true, h3]
          constructor
          · intro r
            constructor
            · intro hhh
              exact absurd hhh (by simp)
            · rintro ⟨d2, hd2, -, hresp⟩
              injection hd2 with hd2
              subst hd2
              rw [h3] at hresp
              exact absurd hresp (by simp)
          · intro e he
            injection he with he
            subst he
            exact ⟨rfl, rfl, Or.inr ⟨d, rfl, rfl⟩⟩
        · simp only [parse_json_response, if_pos (rfl : (200 : Nat) = 200), h1,
            if_pos h2, if_true, h3]
          constructor
          · intro r
            constructor
            · intro hhh
              injection hhh with hhh
              exact ⟨d, rfl, h1, hhh ▸ h3⟩
            · rintro ⟨d2, hd2, -, hresp⟩
              injection hd2 with hd2
              subst hd2
              rw [h3] at hresp
              injection hresp with hresp
              rw [hresp]
          · intro e he
            exact absurd he (by simp)
      · simp only [parse_json_response, if_pos (rfl : (200 : Nat) = 200), h1,
          if_neg h2]
        constructor
        · intro r
          constructor
          · intro hhh
            exact absurd hhh (by simp)
          · rintro ⟨d2, hd2, hstat, -⟩
            injection hd2 with hd2
            subst hd2
            rw [h1] at hstat
            injection hstat with hstat
            rw [hstat] at h2
            exact absurd (by simp [Json.eqStr]) h2
        · intro e he
          injection he with he
          subst he
          exact ⟨rfl, rfl, Or.inr ⟨d, rfl, rfl⟩⟩

/-- C7 witness: a concrete 200 envelope with stat OK parses to its
response field via the characterization. -/
theorem status_200_parse_characterization_witness :
    parse_json_response 200 "OK" "raw"
      (some (.obj [("stat", .str "OK"), ("response", .bool true)])) = .ok (.bool true) :=
  ((status_200_parse_characterization "OK" "raw"
      (some (.obj [("stat", .str "OK"), ("response", .bool true)]))).1 (.bool true)).mpr
    ⟨_, rfl, rfl, rfl⟩

/-- C8: permuting the insertion order of the request parameters changes
neither the canonical parameter string nor the signed authorization
header, for any digest and base64 primitives and any signature version. -/
theorem canon_params_sign_order_independent
    (l1 l2 : List (String × List String)) (h : l1.Perm l2) :
    canon_params l1 = canon_params l2
    ∧ ∀ (hm : String → String → String) (b64 : String → String)
        (ikey skey method host uri date : String) (sv : Nat),
        sign hm b64 ikey skey method host uri date sv l1
          = sign hm b64 ikey skey method host uri date sv l2 := by
  have hsort : List.insertionSort pairLe (l1.map fun kv => (urlquote kv.1, kv.2))
      = List.insertionSort pairLe (l2.map fun kv => (urlquote kv.1, kv.2)) :=
    @List.eq_of_perm_of_sorted _ pairLe _ _ _
      ((List.perm_insertionSort _ _).trans
        (((h.map _).trans (List.perm_insertionSort _ _).symm)))
      (List.sorted_insertionSort _ _) (List.sorted_insertionSort _ _)
  have hcanon : canon_params l1 = canon_params l2 := by
    unfold canon_params
    rw [hsort]
  refine ⟨hcanon, fun hm b64 ikey skey method host uri date sv => ?_⟩
  unfold sign canonicalize
  rw [hcanon]

/-- C8 witness: a concrete two-key permutation gives equal canonical
strings via the theorem. -/
theorem canon_params_sign_order_independent_witness :
    ([("b", ["2"]), ("a", ["1", "3"])].Perm [("a", ["1", "3"]), ("b", ["2"])])
    ∧ canon_params [("b", ["2"]), ("a", ["1", "3"])]
      = canon_params [("a", ["1", "3"]), ("b", ["2"])] :=
  ⟨by decide,
   (canon_params_sign_order_independent [("b", ["2"]), ("a", ["1", "3"])]
      [("a", ["1", "3"]), ("b", ["2"])] (by decide)).1⟩

/-- C9: the dict literal of get_hash_for_connection is keyed by the
component values themselves, so the distinct identity tuples (alice, bob,
1.2.3.4) and (bob, alice, 1.2.3.4) feed the identical serialized
descriptor to the digest and collide for every digest function: distinct
tuples do not yield distinct cache keys. -/
theorem swapped_tuples_same_cache_key : ∀ f : String → String,
    get_hash_for_connection f (.str "alice") (.str "bob") (.str "1.2.3.4")
      = get_hash_for_connection f (.str "bob") (.str "alice") (.str "1.2.3.4")
    ∧ ("alice", "bob", "1.2.3.4") ≠ ("bob", "alice", "1.2.3.4") :=
  fun f => ⟨rfl, by decide⟩

/-- C10 counterexample: the claim fails on the real program.  The keys
alice and pw collide in slot 5 of the fresh 8-slot CPython 2 dict, so the
serialized descriptor depends on the insertion order: swapping the
username and password roles at the tuple (alice, pw, 1.2.3.4) yields a
different digest input, and hence (shown here for the identity digest, and
up to digest collision for any other) a different cache key. -/
theorem swapped_roles_change_cache_key :
    connection_descriptor_py2 "alice" "pw" "1.2.3.4"
      ≠ connection_descriptor_py2 "pw" "alice" "1.2.3.4"
    ∧ get_hash_for_connection_py2 (fun s => s) "alice" "pw" "1.2.3.4"
      ≠ get_hash_for_connection_py2 (fun s => s) "pw" "alice" "1.2.3.4" :=
  ⟨by decide, by decide⟩

/-- C10 (amended): for every identity tuple of strings whose three
components hash to pairwise distinct slots of the fresh 8-slot dict (no
probe collisions), the dict layout, the serialized descriptor and hence
the cache key (for every digest function) are invariant under permuting
the roles of username, password and source address: the two transpositions
proved here generate all six permutations. -/
theorem cache_key_permutation_invariant_distinct_slots
    (f : String → String) (u p i : String)
    (hup : py2StringHash u % 8 ≠ py2StringHash p % 8)
    (hui : py2StringHash u % 8 ≠ py2StringHash i % 8)
    (hpi : py2StringHash p % 8 ≠ py2StringHash i % 8) :
    get_hash_for_connection_py2 f u p i = get_hash_for_connection_py2 f p u i
    ∧ get_hash_for_connection_py2 f u p i = get_hash_for_connection_py2 f i p u := by
  have h1 := py2DictTable_three u p i hup hui hpi
  have h2 := py2DictTable_three p u i hup.symm hpi hui
  have h3 := py2DictTable_three i p u hpi.symm hui.symm hup.symm
  have t12 : py2DictTable [u, p, i] = py2DictTable [p, u, i] := by
    rw [h1, h2, List.set_comm _ _ _ hup]
  have t13 : py2DictTable [u, p, i] = py2DictTable [i, p, u] := by
    rw [h1, h3, List.set_comm (some p) (some i) _ hpi,
      List.set_comm (some u) (some i) _ hui, List.set_comm (some u) (some p) _ hup]
  constructor <;>
    unfold get_hash_for_connection_py2 connection_descriptor_py2 py2_dumps_dict
  · rw [t12]
  · rw [t13]

/-- C10 witness: the tuple (alice, bob, 1.2.3.4) occupies the pairwise
distinct slots 5, 2 and 1, and its cache key is invariant under the role
permutations. -/
theorem cache_key_permutation_invariant_distinct_slots_witness :
    py2StringHash "alice" % 8 ≠ py2StringHash "bob" % 8
    ∧ py2StringHash "alice" % 8 ≠ py2StringHash "1.2.3.4" % 8
    ∧ py2StringHash "bob" % 8 ≠ py2StringHash "1.2.3.4" % 8
    ∧ (get_hash_for_connection_py2 (fun s => s) "alice" "bob" "1.2.3.4"
        = get_hash_for_connection_py2 (fun s => s) "bob" "alice" "1.2.3.4"
      ∧ get_hash_for_connection_py2 (fun s => s) "alice" "bob" "1.2.3.4"
        = get_hash_for_connection_py2 (fun s => s) "1.2.3.4" "bob" "alice") :=
  ⟨by decide, by decide, by decide,
   cache_key_permutation_invariant_distinct_slots (fun s => s) "alice" "bob" "1.2.3.4"
     (by decide) (by decide) (by decide)⟩

/-- Corroboration of the canonical serialization at the allow-scenario
descriptor: the byte-accurate CPython 2 output for the insertion order of
the source coincides with descC1. -/
theorem py2_descC1_bytes :
    connection_descriptor_py2 "alice" "s3cr3t" "10.0.0.5" = descC1 := rfl

/-- Corroboration of the canonical serialization at the missing-status
descriptor: the byte-accurate CPython 2 output coincides with descC4. -/
theorem py2_descC4_bytes :
    connection_descriptor_py2 "alice" "pw" "1.2.3.4" = descC4 := rfl

/-- Corroboration of the collision theorem on the byte-accurate model: the
slots of alice, bob and 1.2.3.4 are collision-free, so both insertion
orders of the swapped tuples serialize identically and the real program
derives the identical cache key for these two distinct tuples. -/
theorem py2_alice_bob_insertion_invariant :
    connection_descriptor_py2 "alice" "bob" "1.2.3.4"
      = connection_descriptor_py2 "bob" "alice" "1.2.3.4" := rfl

end Duo
